import Mathlib

/-!
Shallow embedding of the luxury-retail business-intelligence dashboard's
computation layer (modules/kpi_calculator.py, modules/data_loader.py,
modules/alerts.py) and proofs about it.

Modelling conventions:
  * A pandas DataFrame of sales rows is a `List SalesRecord`; an inventory
    DataFrame is an `InventoryTable` (typed rows plus an explicit column-name
    list, so that column addition by the alert engine is observable); the
    loader sees untyped `RawTable`s.
  * Timestamps have calendar-day resolution in the source's comparisons
    (`.dt.date` equality, whole-day windows), so a `Date` is an `Int` day
    number; `datetime.now()` is passed in explicitly as a day number (and,
    for the alert engine, an hour).
  * Money and ratios are exact rationals `ℚ`.  A pandas `mean()` of an empty
    series is NaN; that is modelled by `Option ℚ` with `none` for NaN, and
    the source's `np.isnan` guards become `Option.getD 0`.
  * Python's `x > 0` comparison on a possibly-NaN float is `false` for NaN,
    which the `Option` match-guards below reproduce.
  * `np.random`'s seeded Mersenne Twister stream is abstracted as a step
    function `RngStep` from state to (raw draw, next state), universally
    quantified in the determinism theorems.

The file is laid out as definitions first, then helper lemmas, then one
theorem per verified claim (with witnesses and counterexamples).
-/

namespace Dashboard

/-- A row of the sales table (columns of the sales extract that the
computation layer reads). `date` is a day number standing for the `Date`
timestamp column. -/
structure SalesRecord where
  date : Int
  boutique_id : String
  boutique_name : String
  region : String
  sku_code : String
  product_category : String
  brand : String
  units_sold : Nat
  revenue_usd : ℚ
  transaction_id : String
  customer_type : String
deriving DecidableEq, Repr, Inhabited

/-- A row of the inventory table.  `last_restock_date` is optional (the
column itself may be absent, tracked by `InventoryTable.cols`);
`days_since_restock` holds the `Days_Since_Restock` cell that
`check_alerts` may write, `none` before it does. -/
structure InventoryRecord where
  date : Int
  boutique_id : String
  sku_code : String
  product_name : String
  category : String
  brand : String
  current_stock_units : Nat
  min_stock_threshold : Nat
  unit_cost : ℚ
  retail_price : ℚ
  last_restock_date : Option Int
  days_since_restock : Option Int
deriving DecidableEq, Repr, Inhabited

/-- The inventory DataFrame: typed rows plus the explicit list of column
names, so that adding a column (as `check_alerts` does) is observable. -/
structure InventoryTable where
  cols : List String
  rows : List InventoryRecord
deriving DecidableEq, Repr, Inhabited

/-- pandas `Series.mean()`: NaN (here `none`) on an empty series, else the
arithmetic mean. -/
def pmean (l : List ℚ) : Option ℚ :=
  if l = [] then none else some (l.sum / (l.length : ℚ))

/-- `Series.max()` over day numbers, with an arbitrary default for the empty
series (pandas gives NaT there; every use below filters to the empty list in
that case, so the default is immaterial). -/
def listMaxD (l : List Int) : Int :=
  l.foldl max (l.headD 0)

/-- Per-transaction revenue sums: `rows.groupby(Transaction_ID)[Revenue_USD].sum()`
as the list of group sums (one per distinct `Transaction_ID`). -/
def txnGroupSums (rows : List SalesRecord) : List ℚ :=
  ((rows.map (·.transaction_id)).dedup).map
    (fun t => ((rows.filter (fun r => r.transaction_id = t)).map (·.revenue_usd)).sum)

/-- Number of distinct values of `f` over `rows` (`Series.nunique()`). -/
def nuniqueBy (f : SalesRecord → String) (rows : List SalesRecord) : Nat :=
  ((rows.map f).dedup).length

/-- Rows of `sales` whose `Date` (as a calendar day) equals `d`. -/
def rowsOnDate (sales : List SalesRecord) (d : Int) : List SalesRecord :=
  sales.filter (fun r => r.date = d)

/-- "Today's" rows per `calculate_kpis`: the rows dated `now`; if there are
none, the rows dated with the table's maximum `Date`. -/
def todayData (now : Int) (sales : List SalesRecord) : List SalesRecord :=
  if rowsOnDate sales now = [] then
    rowsOnDate sales (listMaxD (sales.map (·.date)))
  else
    rowsOnDate sales now

/-- "Yesterday's" rows per `calculate_kpis`: one calendar day before the
resolved "today". -/
def yesterdayData (now : Int) (sales : List SalesRecord) : List SalesRecord :=
  if rowsOnDate sales now = [] then
    rowsOnDate sales (listMaxD (sales.map (·.date)) - 1)
  else
    rowsOnDate sales (now - 1)

/-- The record returned by `calculate_kpis`.  All fields are exact rationals
or naturals — the embedding of the NaN guards (`Option.getD 0`) happens
inside `calculate_kpis`, so no field can be non-finite. -/
structure Kpis where
  daily_revenue : ℚ
  revenue_growth : ℚ
  atv : ℚ
  atv_change : ℚ
  conversion_rate : ℚ
  conversion_change : ℚ
  inventory_turnover : ℚ
  low_stock_items : Nat
  stockout_risk : Nat
deriving DecidableEq, Repr

/-- `calculate_kpis(sales_data, inventory_data)` of modules/kpi_calculator.py,
with `datetime.now()`'s day number passed explicitly as `now`.
The per-metric zero-denominator guards follow the source line by line; the
`np.isnan` guards on `atv`/`atv_change` are the `Option.getD 0` at the end. -/
def calculate_kpis (now : Int) (sales : List SalesRecord)
    (inventory : List InventoryRecord) : Kpis :=
  let today_data := todayData now sales
  let yesterday_data := yesterdayData now sales
  let daily_revenue := (today_data.map (·.revenue_usd)).sum
  let prev_revenue := (yesterday_data.map (·.revenue_usd)).sum
  let revenue_growth :=
    if prev_revenue > 0 then (daily_revenue - prev_revenue) / prev_revenue * 100 else 0
  let atvOpt := pmean (txnGroupSums today_data)
  let prevAtvOpt := pmean (txnGroupSums yesterday_data)
  let atvChangeOpt : Option ℚ :=
    match prevAtvOpt with
    | some p => if p > 0 then atvOpt.map (fun a => (a - p) / p * 100) else some 0
    | none => some 0
  let total_transactions := nuniqueBy (·.transaction_id) today_data
  let total_boutiques := nuniqueBy (·.boutique_id) today_data
  let estimated_visitors := total_boutiques * 100
  let conversion_rate : ℚ :=
    if estimated_visitors > 0 then
      (total_transactions : ℚ) / (estimated_visitors : ℚ) * 100
    else 0
  let prev_transactions := nuniqueBy (·.transaction_id) yesterday_data
  let prev_visitors := nuniqueBy (·.boutique_id) yesterday_data * 100
  let prev_conversion : ℚ :=
    if prev_visitors > 0 then
      (prev_transactions : ℚ) / (prev_visitors : ℚ) * 100
    else 0
  let conversion_change := conversion_rate - prev_conversion
  let total_inventory_value :=
    (inventory.map (fun r => (r.current_stock_units : ℚ) * r.unit_cost)).sum
  let last_30_days := sales.filter (fun r => now - 30 ≤ r.date)
  let cogsOpt :=
    (pmean (inventory.map (·.unit_cost))).map
      (fun m => ((last_30_days.map (fun r => (r.units_sold : ℚ))).sum) * m)
  let annualCogsOpt := cogsOpt.map (· * 12)
  let inventory_turnover :=
    if total_inventory_value > 0 then
      (annualCogsOpt.map (· / total_inventory_value)).getD 0
    else 0
  let low_stock_items :=
    (inventory.filter (fun r => r.current_stock_units ≤ r.min_stock_threshold)).length
  let stockout_risk :=
    (inventory.filter (fun r => r.current_stock_units = 0)).length
  { daily_revenue := daily_revenue
    revenue_growth := revenue_growth
    atv := atvOpt.getD 0
    atv_change := (atvChangeOpt.getD 0)
    conversion_rate := conversion_rate
    conversion_change := conversion_change
    inventory_turnover := inventory_turnover
    low_stock_items := low_stock_items
    stockout_risk := stockout_risk }

/-- A one-row sales table used to exhibit the `conversion_change` behaviour
when "yesterday" is empty. -/
def oneDayTable : List SalesRecord :=
  [⟨0, "BTQ001", "Dubai Mall", "Middle East", "SKU1", "Watches", "Rolex", 1, 100,
    "TXN00000001", "New"⟩]

/-- The two-day sales table of the end-to-end scenario: day `a` has revenue
10,000 over two transactions of 5,000 each; day `a + 1` has revenue 8,000
in one transaction. -/
def c2Table (a : Int) : List SalesRecord :=
  [⟨a, "BTQ001", "Dubai Mall", "Middle East", "SKU1", "Watches", "Rolex", 1, 5000,
    "TXNA0001", "New"⟩,
   ⟨a, "BTQ001", "Dubai Mall", "Middle East", "SKU2", "Watches", "Rolex", 1, 5000,
    "TXNA0002", "New"⟩,
   ⟨a + 1, "BTQ001", "Dubai Mall", "Middle East", "SKU3", "Watches", "Rolex", 1, 8000,
    "TXNB0001", "New"⟩]

/-- A raw loaded DataFrame as the loader sees it: its column names and its
(untyped) cell rows. -/
structure RawTable where
  cols : List String
  rows : List (List String)
deriving DecidableEq, Repr, Inhabited

/-- `validate_excel(df, required_columns, file_type)` of modules/data_loader.py:
the set difference of the required columns minus the actual columns, and one
formatted error when it is non-empty.  The source builds a Python `set`,
whose iteration order is unspecified; the set is modelled as the deduplicated
required-order list, which carries the same membership.  The function is a
total Lean definition, as the source never raises on any table. -/
def validate_excel (df : RawTable) (required_columns : List String)
    (file_type : String) : List String :=
  let missing_cols := (required_columns.filter (fun c => c ∉ df.cols)).dedup
  if missing_cols = [] then []
  else [file_type ++ " is missing columns: " ++ String.intercalate ", " missing_cols]

/-- The required sales columns of `load_data`. -/
def sales_columns : List String :=
  ["Date", "Boutique_ID", "Boutique_Name", "Region", "SKU_Code",
   "Product_Category", "Brand", "Units_Sold", "Revenue_USD",
   "Transaction_ID", "Customer_Type"]

/-- The required inventory columns of `load_data`. -/
def inventory_columns : List String :=
  ["Date", "Boutique_ID", "SKU_Code", "Product_Name", "Category",
   "Brand", "Current_Stock_Units", "Min_Stock_Threshold", "Retail_Price"]

/-- The Date-conversion step `df[Date] = pd.to_datetime(df[Date])`.  The
column lookup raises `KeyError` when `Date` is absent — Python renders that
exception as the quoted key name — and the conversion itself (modelled by
the `parse` parameter, since timestamp parsing is outside the embedding) may
fail on a present column. -/
def convertDate (parse : RawTable → Except String RawTable)
    (df : RawTable) : Except String RawTable :=
  if "Date" ∈ df.cols then parse df else Except.error "'Date'"

/-- One file's pipeline inside `load_data`: validate (the errors collected
so far survive), then convert the Date column; a conversion failure is
caught, recorded as a load error, and the table becomes absent (the source
sets it to `None`).  File reading itself is modelled as the already-loaded
`df` argument. -/
def loadOne (parse : RawTable → Except String RawTable) (df : RawTable)
    (required : List String) (label : String) (errName : String) :
    Option RawTable × List String :=
  let verrs := validate_excel df required label
  match convertDate parse df with
  | Except.ok df2 => (some df2, verrs)
  | Except.error e => (none, verrs ++ ["Error loading " ++ errName ++ " file: " ++ e])

/-- `load_data(sales_file, inventory_file)` of modules/data_loader.py: the two
independent try blocks, sharing one error list (sales errors first). -/
def load_data (parse : RawTable → Except String RawTable)
    (sales_df inventory_df : RawTable) :
    Option RawTable × Option RawTable × List String :=
  let s := loadOne parse sales_df sales_columns "Sales Report" "sales"
  let i := loadOne parse inventory_df inventory_columns "Inventory Report" "inventory"
  (s.1, i.1, s.2 ++ i.2)

/-- An identity stand-in for the timestamp parse that always succeeds. -/
def parseOk : RawTable → Except String RawTable := fun df => Except.ok df

/-- A row of the table returned by `calculate_boutique_metrics` (column
names of the source's renamed aggregate). -/
structure BoutiqueRow where
  boutique_name : String
  region : String
  revenue : ℚ
  units_sold : Nat
  transactions : Nat
  estimated_visitors : Nat
  conversion_rate : ℚ
  atv : ℚ
deriving DecidableEq, Repr

/-- The trailing 7-day window of `calculate_boutique_metrics`:
`sales[sales.Date >= sales.Date.max() - 7 days]`. -/
def last7Rows (sales : List SalesRecord) : List SalesRecord :=
  sales.filter (fun r => listMaxD (sales.map (·.date)) - 7 ≤ r.date)

/-- The distinct `(Boutique_Name, Region)` group keys of the window. -/
def boutiqueKeys (rows : List SalesRecord) : List (String × String) :=
  (rows.map (fun r => (r.boutique_name, r.region))).dedup

/-- The rows of one `(Boutique_Name, Region)` group. -/
def boutiqueGroup (rows : List SalesRecord) (k : String × String) : List SalesRecord :=
  rows.filter (fun r => (r.boutique_name, r.region) = k)

/-- One aggregated row of `calculate_boutique_metrics`: summed revenue and
units, distinct-transaction count, the fixed visitor heuristic, and the
derived conversion rate and ATV.  The ATV division by a zero transaction
count would be a pandas infinity; in `ℚ` it is 0 — no verified claim touches
that case, and `boutique_transactions_positive` shows it cannot arise. -/
def mkBoutiqueRow (rows : List SalesRecord) (k : String × String) : BoutiqueRow :=
  let grp := boutiqueGroup rows k
  let tx := ((grp.map (·.transaction_id)).dedup).length
  { boutique_name := k.1
    region := k.2
    revenue := (grp.map (·.revenue_usd)).sum
    units_sold := (grp.map (·.units_sold)).sum
    transactions := tx
    estimated_visitors := 700
    conversion_rate := (tx : ℚ) / 700 * 100
    atv := (grp.map (·.revenue_usd)).sum / (tx : ℚ) }

/-- `calculate_boutique_metrics(sales_data)` of modules/kpi_calculator.py:
group the trailing 7-day window by `(Boutique_Name, Region)`, aggregate, and
sort descending by revenue. -/
def calculate_boutique_metrics (sales : List SalesRecord) : List BoutiqueRow :=
  let last7 := last7Rows sales
  ((boutiqueKeys last7).map (mkBoutiqueRow last7)).mergeSort
    (fun x y => decide (y.revenue ≤ x.revenue))

/-- A sales row for the window-boundary tables, parameterised by date. -/
def c4Row (d : Int) (sku : String) : SalesRecord :=
  ⟨d, "BTQ001", "Dubai Mall", "Middle East", sku, "Watches", "Rolex", 1, 100,
   "TXN" ++ sku, "New"⟩

/-- A table whose max date is 0, with one row exactly 7 days before the max
and one exactly 8 days before it. -/
def c4Table : List SalesRecord := [c4Row 0 "A", c4Row (-7) "B", c4Row (-8) "C"]

/-- A row of the table returned by `calculate_category_performance`.
`revenue_share` is `Option ℚ`: pandas division by a zero total yields a
non-finite float (NaN for a 0/0, signed infinity otherwise), modelled as
`none`. -/
structure CategoryRow where
  category : String
  revenue : ℚ
  units_sold : Nat
  transactions : Nat
  revenue_share : Option ℚ
deriving DecidableEq, Repr

/-- The distinct `Product_Category` keys. -/
def categoryKeys (sales : List SalesRecord) : List String :=
  (sales.map (·.product_category)).dedup

/-- The rows of one `Product_Category` group. -/
def categoryGroup (sales : List SalesRecord) (c : String) : List SalesRecord :=
  sales.filter (fun r => r.product_category = c)

/-- `category_metrics[Revenue].sum()`: the sum of the per-group revenue
sums. -/
def categoryTotal (sales : List SalesRecord) : ℚ :=
  ((categoryKeys sales).map (fun c => ((categoryGroup sales c).map (·.revenue_usd)).sum)).sum

/-- One aggregated row of `calculate_category_performance`. -/
def mkCategoryRow (sales : List SalesRecord) (c : String) : CategoryRow :=
  let grp := categoryGroup sales c
  let rev := (grp.map (·.revenue_usd)).sum
  { category := c
    revenue := rev
    units_sold := (grp.map (·.units_sold)).sum
    transactions := ((grp.map (·.transaction_id)).dedup).length
    revenue_share :=
      if categoryTotal sales = 0 then none
      else some (rev / categoryTotal sales * 100) }

/-- `calculate_category_performance(sales_data)` of modules/kpi_calculator.py:
group the whole table by `Product_Category`, aggregate with revenue share,
and sort descending by revenue. -/
def calculate_category_performance (sales : List SalesRecord) : List CategoryRow :=
  ((categoryKeys sales).map (mkCategoryRow sales)).mergeSort
    (fun x y => decide (y.revenue ≤ x.revenue))

/-- The sum of the `Revenue_Share` column as the claim reads it: `some` of
the total when every share is finite, `none` as soon as any share is
non-finite. -/
def sumShares (rows : List CategoryRow) : Option ℚ :=
  rows.foldr (fun r acc =>
    match r.revenue_share, acc with
    | some x, some y => some (x + y)
    | _, _ => none) (some 0)

/-- A one-row sales table with zero revenue: its category's revenue share is
a pandas 0/0. -/
def zTable : List SalesRecord :=
  [⟨0, "BTQ001", "Dubai Mall", "Middle East", "SKU1", "Watches", "Rolex", 1, 0,
    "TXN1", "New"⟩]

/-- The merged threshold configuration of `check_alerts`. -/
structure Thresholds where
  revenue_drop_pct : ℚ
  sales_target_miss_pct : ℚ
  low_stock_threshold : ℚ
  conversion_drop_pct : ℚ
  inventory_turnover_min : ℚ
  shrinkage_rate_max : ℚ
deriving DecidableEq, Repr

/-- The caller-supplied thresholds dictionary: each key may be absent. -/
structure ThresholdOverrides where
  revenue_drop_pct : Option ℚ := none
  sales_target_miss_pct : Option ℚ := none
  low_stock_threshold : Option ℚ := none
  conversion_drop_pct : Option ℚ := none
  inventory_turnover_min : Option ℚ := none
  shrinkage_rate_max : Option ℚ := none
deriving DecidableEq, Repr, Inhabited

/-- The threshold merge of modules/alerts.py: supplied values win key by key
over the defaults (15, 20, 5, 25, 2, 1.5). -/
def mergeThresholds (o : ThresholdOverrides) : Thresholds :=
  { revenue_drop_pct := o.revenue_drop_pct.getD 15
    sales_target_miss_pct := o.sales_target_miss_pct.getD 20
    low_stock_threshold := o.low_stock_threshold.getD 5
    conversion_drop_pct := o.conversion_drop_pct.getD 25
    inventory_turnover_min := o.inventory_turnover_min.getD 2
    shrinkage_rate_max := o.shrinkage_rate_max.getD (3 / 2) }

/-- Abstraction of Python's one-decimal float formatting used in two alert
messages.  Exact binary-float rounding is not modelled; no verified claim
depends on these digits. -/
def fmt1 (q : ℚ) : String :=
  toString ((Int.floor (q * 10) : ℚ) / 10)

/-- The alert engine's "today": the rows at the table's max date (the
source's unused wall-clock `today` variable is dead code). -/
def alertTodayData (sales : List SalesRecord) : List SalesRecord :=
  rowsOnDate sales (listMaxD (sales.map (·.date)))

/-- The rows exactly 7 days before the alert engine's "today". -/
def alertWeekAgoData (sales : List SalesRecord) : List SalesRecord :=
  rowsOnDate sales (listMaxD (sales.map (·.date)) - 7)

/-- Alert rule 1 (critical): revenue drop vs. the same day last week. -/
def revenueDropAlerts (sales : List SalesRecord) (th : Thresholds) : List String :=
  let today_revenue := ((alertTodayData sales).map (·.revenue_usd)).sum
  let week_ago_revenue := ((alertWeekAgoData sales).map (·.revenue_usd)).sum
  if week_ago_revenue > 0 then
    let revenue_change := (today_revenue - week_ago_revenue) / week_ago_revenue * 100
    if revenue_change < -th.revenue_drop_pct then
      ["Revenue dropped " ++ fmt1 (abs revenue_change) ++ "% vs. same day last week"]
    else []
  else []

/-- Today's revenue per boutique (`today_data.groupby(Boutique_Name).sum()`;
pandas iterates group keys in sorted order — first-appearance order is used
here, immaterial to every verified claim). -/
def boutiqueRevenues (today : List SalesRecord) : List (String × ℚ) :=
  ((today.map (·.boutique_name)).dedup).map (fun b =>
    (b, ((today.filter (fun r => r.boutique_name = b)).map (·.revenue_usd)).sum))

/-- Alert rule 2 (warning): boutiques below 50% of the mean boutique
revenue. -/
def underperformAlerts (sales : List SalesRecord) : List String :=
  let pairs := boutiqueRevenues (alertTodayData sales)
  match pmean (pairs.map (·.2)) with
  | none => []
  | some avg =>
    (pairs.filter (fun p => p.2 < avg * (1 / 2))).map
      (fun p => p.1 ++ " revenue significantly below network average")

/-- Alert rule 3 (critical): boutiques with history but no rows today, only
after 2 PM wall clock (Python iterates a set — unspecified order; modelled
in first-appearance order, immaterial to the verified claims). -/
def zeroTransactionAlerts (now_hour : Nat) (sales : List SalesRecord) : List String :=
  if 14 ≤ now_hour then
    let boutiques_with_sales := ((alertTodayData sales).map (·.boutique_name)).dedup
    let all_boutiques := (sales.map (·.boutique_name)).dedup
    (all_boutiques.filter (fun b => b ∉ boutiques_with_sales)).map
      (fun b => b ++ " has ZERO transactions today")
  else []

/-- Alert rule 4 (warning): one aggregate low-stock message with the count. -/
def lowStockAlerts (inv : List InventoryRecord) : List String :=
  let low_stock := inv.filter (fun r => r.current_stock_units ≤ r.min_stock_threshold)
  if 0 < low_stock.length then
    [toString low_stock.length ++ " SKUs below minimum stock threshold"]
  else []

/-- Alert rule 5 (critical): one message per stockout row, capped by
`.head(5)` at the first five in table order. -/
def stockoutAlerts (inv : List InventoryRecord) : List String :=
  let stockout := inv.filter (fun r => r.current_stock_units = 0)
  if 0 < stockout.length then
    (stockout.take 5).map (fun r => "STOCKOUT: " ++ r.product_name ++ " at " ++ r.boutique_id)
  else []

/-- The in-place column assignment
`inventory_data[Days_Since_Restock] = (now - Last_Restock_Date).dt.days`:
run only when the `Last_Restock_Date` column exists; it patches every row
and appends the new column name (pandas overwrites silently if the column
already exists). -/
def addDaysSinceRestock (now_date : Int) (inv : InventoryTable) : InventoryTable :=
  if "Last_Restock_Date" ∈ inv.cols then
    { cols := if "Days_Since_Restock" ∈ inv.cols then inv.cols
              else inv.cols ++ ["Days_Since_Restock"]
      rows := inv.rows.map (fun r =>
        { r with days_since_restock := some (now_date - r.last_restock_date.getD 0) }) }
  else inv

/-- Alert rule 6 (warning): dead stock above 10% of inventory value,
evaluated on the rows patched by `addDaysSinceRestock`. -/
def deadStockAlerts (rows : List InventoryRecord) : List String :=
  let dead_stock := rows.filter (fun r =>
    (match r.days_since_restock with | some d => decide (180 < d) | none => false)
      && decide (0 < r.current_stock_units))
  if 0 < dead_stock.length then
    let dead_value := (dead_stock.map (fun r => (r.current_stock_units : ℚ) * r.unit_cost)).sum
    let total_value := (rows.map (fun r => (r.current_stock_units : ℚ) * r.unit_cost)).sum
    let pct := if total_value > 0 then dead_value / total_value * 100 else 0
    if pct > 10 then
      ["Dead stock (>180 days) represents " ++ fmt1 pct ++ "% of inventory value"]
    else []
  else []

/-- The observable result of `check_alerts`: the two alert lists and the
post-call state of the two input tables (mutation made explicit). -/
structure AlertsOut where
  critical : List String
  warning : List String
  sales_after : List SalesRecord
  inventory_after : InventoryTable
deriving DecidableEq, Repr

/-- `check_alerts(sales_data, inventory_data, thresholds)` of
modules/alerts.py, with the wall clock passed explicitly.  Sales rules run
only on a non-empty sales table, inventory rules only on a non-empty
inventory table; critical order is rule 1, rule 3, then stockouts, warning
order is rule 2, rule 4, rule 6. -/
def check_alerts (now_date : Int) (now_hour : Nat) (sales : List SalesRecord)
    (inv : InventoryTable) (overrides : ThresholdOverrides) : AlertsOut :=
  let th := mergeThresholds overrides
  let salesCrit :=
    if sales ≠ [] then revenueDropAlerts sales th ++ zeroTransactionAlerts now_hour sales
    else []
  let salesWarn := if sales ≠ [] then underperformAlerts sales else []
  let inv2 := if inv.rows ≠ [] then addDaysSinceRestock now_date inv else inv
  let invCrit := if inv.rows ≠ [] then stockoutAlerts inv.rows else []
  let invWarnLow := if inv.rows ≠ [] then lowStockAlerts inv.rows else []
  let invWarnDead :=
    if inv.rows ≠ [] ∧ "Last_Restock_Date" ∈ inv.cols then deadStockAlerts inv2.rows
    else []
  { critical := salesCrit ++ invCrit
    warning := salesWarn ++ invWarnLow ++ invWarnDead
    sales_after := sales
    inventory_after := inv2 }

/-- An inventory record with the `Days_Since_Restock` cell cleared: equality
of rows under `stripDays` says every other cell is untouched. -/
def stripDays (r : InventoryRecord) : InventoryRecord :=
  { r with days_since_restock := none }

/-- A single inventory row carrying a `Last_Restock_Date` value. -/
def invRow0 : InventoryRecord :=
  ⟨0, "BTQ001", "SKU1000", "Luxury Item 0", "Watches", "Rolex", 1, 5, 1000, 2000,
   some 0, none⟩

/-- An inventory table with the `Last_Restock_Date` column present. -/
def invTable0 : InventoryTable :=
  ⟨["Date", "Boutique_ID", "SKU_Code", "Product_Name", "Category", "Brand",
    "Current_Stock_Units", "Min_Stock_Threshold", "Retail_Price", "Last_Restock_Date"],
   [invRow0]⟩

/-- An empty thresholds dictionary: every default applies. -/
def noOverrides : ThresholdOverrides := ⟨none, none, none, none, none, none⟩

/-- A sales row of the demo generator (the generator emits three columns the
ingestion contract does not require: local-currency revenue, sales associate
and payment method). -/
structure DemoSalesRow where
  date : Int
  boutique_id : String
  boutique_name : String
  region : String
  sku_code : String
  product_category : String
  brand : String
  units_sold : Nat
  revenue_local_currency : Nat
  revenue_usd : Nat
  transaction_id : String
  sales_associate_id : String
  customer_type : String
  payment_method : String
deriving DecidableEq, Repr, Inhabited

/-- An inventory row of the demo generator. -/
structure DemoInvRow where
  date : Int
  boutique_id : String
  sku_code : String
  product_name : String
  category : String
  brand : String
  current_stock_units : Nat
  min_stock_threshold : Nat
  max_stock_threshold : Nat
  unit_cost : Nat
  retail_price : Nat
  last_restock_date : Int
  supplier_lead_time_days : Nat
deriving DecidableEq, Repr, Inhabited

/-- The seeded `np.random` stream, abstracted: a deterministic step from the
generator state to a raw draw and the next state.  `np.random.seed(42)`
makes the initial state 42; the theorems quantify over the step function. -/
def RngStep : Type := Nat → Nat × Nat

/-- `np.random.randint(lo, hi)`: a value in the half-open range from one raw
draw. -/
def randint (step : RngStep) (lo hi : Nat) (s : Nat) : Nat × Nat :=
  ((step s).1 % (hi - lo) + lo, (step s).2)

/-- `np.random.choice(xs)`: one element selected by one raw draw. -/
def rchoice (step : RngStep) (xs : List String) (s : Nat) : String × Nat :=
  (xs.getD ((step s).1 % xs.length) "", (step s).2)

/-- `np.random.choice([New, Returning, VIP], p=[0.3, 0.5, 0.2])`: one raw
draw mapped through the cumulative weights in tenths. -/
def weightedCustomerType (step : RngStep) (s : Nat) : String × Nat :=
  let d := (step s).1 % 10
  (if d < 3 then "New" else if d < 8 then "Returning" else "VIP", (step s).2)

/-- The six fixed boutiques with their zero-based index (`boutiques.index`)
and region. -/
def demoBoutiques : List (Nat × String × String) :=
  [(0, "Dubai Mall", "Middle East"), (1, "Paris Champs-Élysées", "Europe"),
   (2, "London Bond Street", "Europe"), (3, "NYC Fifth Avenue", "Americas"),
   (4, "Tokyo Ginza", "Asia"), (5, "Hong Kong Central", "Asia")]

/-- The three demo categories. -/
def demoCategories : List String := ["Watches", "Jewelry", "Accessories"]

/-- The four demo brands. -/
def demoBrands : List String := ["Rolex", "Cartier", "Patek Philippe", "Van Cleef & Arpels"]

/-- Three-digit zero padding of the boutique index. -/
def pad3 (n : Nat) : String :=
  if n < 10 then "00" ++ toString n else if n < 100 then "0" ++ toString n else toString n

/-- Four-digit zero padding of the transaction index. -/
def pad4 (n : Nat) : String :=
  if n < 10 then "000" ++ toString n
  else if n < 100 then "00" ++ toString n
  else if n < 1000 then "0" ++ toString n
  else toString n

/-- Stand-in for the YYYYMMDD rendering of a date inside a transaction id:
a rendering of the day number, injective in the date, which is all the
embedding uses. -/
def dateStr (d : Int) : String := toString d

/-- One generated sales transaction: the draws occur in the source's field
order (SKU, category, brand, units, local revenue, USD revenue, sales
associate, customer type, payment method). -/
def genTxn (step : RngStep) (date : Int) (bIdx : Nat) (bName region : String)
    (i : Nat) (s : Nat) : DemoSalesRow × Nat :=
  let p1 := randint step 1000 9999 s
  let p2 := rchoice step demoCategories p1.2
  let p3 := rchoice step demoBrands p2.2
  let p4 := randint step 1 4 p3.2
  let p5 := randint step 5000 50000 p4.2
  let p6 := randint step 5000 50000 p5.2
  let p7 := randint step 100 999 p6.2
  let p8 := weightedCustomerType step p7.2
  let p9 := rchoice step ["Credit Card", "Cash", "Wire Transfer"] p8.2
  (⟨date, "BTQ" ++ pad3 (bIdx + 1), bName, region, "SKU" ++ toString p1.1, p2.1, p3.1,
    p4.1, p5.1, p6.1, "TXN" ++ dateStr date ++ pad4 i, "SA" ++ toString p7.1,
    p8.1, p9.1⟩, p9.2)

/-- The transaction loop of one boutique-day. -/
def genTxns (step : RngStep) (date : Int) (bIdx : Nat) (bName region : String) :
    Nat → Nat → Nat → List DemoSalesRow × Nat
  | 0, _, s => ([], s)
  | count + 1, i, s =>
    let p := genTxn step date bIdx bName region i s
    let q := genTxns step date bIdx bName region count (i + 1) p.2
    (p.1 :: q.1, q.2)

/-- The per-boutique loop of one day: the 5-to-15 transaction count is drawn
first, then the transaction loop runs. -/
def genDay (step : RngStep) (date : Int) :
    List (Nat × String × String) → Nat → List DemoSalesRow × Nat
  | [], s => ([], s)
  | b :: rest, s =>
    let pn := randint step 5 16 s
    let p := genTxns step date b.1 b.2.1 b.2.2 pn.1 0 pn.2
    let q := genDay step date rest p.2
    (p.1 ++ q.1, q.2)

/-- The outer loop over the thirty dates. -/
def genDays (step : RngStep) :
    List Int → List (Nat × String × String) → Nat → List DemoSalesRow × Nat
  | [], _, s => ([], s)
  | d :: ds, bs, s =>
    let p := genDay step d bs s
    let q := genDays step ds bs p.2
    (p.1 ++ q.1, q.2)

/-- The date range of the demo sales table: thirty consecutive days ending
at the invocation date. -/
def demoDates (now : Int) : List Int :=
  (List.range 30).map (fun i => now - 29 + (i : Int))

/-- One generated inventory row: stock drawn first, then the dict-literal
draws (category, brand, cost, retail price, restock age, lead time). -/
def genInvItem (step : RngStep) (now : Int) (bIdx : Nat) (i : Nat) (s : Nat) :
    DemoInvRow × Nat :=
  let p1 := randint step 0 20 s
  let p2 := rchoice step demoCategories p1.2
  let p3 := rchoice step demoBrands p2.2
  let p4 := randint step 2000 20000 p3.2
  let p5 := randint step 5000 50000 p4.2
  let p6 := randint step 1 60 p5.2
  let p7 := randint step 7 30 p6.2
  (⟨now, "BTQ" ++ pad3 (bIdx + 1), "SKU" ++ toString (1000 + i), "Luxury Item " ++ toString i,
    p2.1, p3.1, p1.1, 5, 20, p4.1, p5.1, now - (p6.1 : Int), p7.1⟩, p7.2)

/-- The 50-SKU loop per boutique. -/
def genInvItems (step : RngStep) (now : Int) (bIdx : Nat) :
    Nat → Nat → Nat → List DemoInvRow × Nat
  | 0, _, s => ([], s)
  | count + 1, i, s =>
    let p := genInvItem step now bIdx i s
    let q := genInvItems step now bIdx count (i + 1) p.2
    (p.1 :: q.1, q.2)

/-- The boutique loop of the inventory generator. -/
def genInv (step : RngStep) (now : Int) :
    List (Nat × String × String) → Nat → List DemoInvRow × Nat
  | [], s => ([], s)
  | b :: rest, s =>
    let p := genInvItems step now b.1 50 0 s
    let q := genInv step now rest p.2
    (p.1 ++ q.1, q.2)

/-- `generate_demo_data()` of modules/data_loader.py: seed 42, thirty days of
sales ending at the wall-clock date, then the inventory rows drawn from the
same continuing random stream; `now` is the wall-clock day the source reads
through `datetime.now()`. -/
def generate_demo_data (step : RngStep) (now : Int) :
    List DemoSalesRow × List DemoInvRow :=
  let sales := genDays step (demoDates now) demoBoutiques 42
  let inv := genInv step now demoBoutiques sales.2
  (sales.1, inv.1)

/-- A sales row with its clock-derived fields (`Date` and the date component
of `Transaction_ID`) cleared. -/
def stripTimeSales (r : DemoSalesRow) : DemoSalesRow :=
  { r with date := 0, transaction_id := "" }

/-- An inventory row with its clock-derived fields (`Date`,
`Last_Restock_Date`) cleared. -/
def stripTimeInv (r : DemoInvRow) : DemoInvRow :=
  { r with date := 0, last_restock_date := 0 }

/-- A concrete linear-congruential stand-in for the abstract random stream,
used only to evaluate the generator at a concrete input. -/
def lcgStep : RngStep := fun s =>
  (((s * 1664525 + 1013904223) % 4294967296),
   ((s * 1664525 + 1013904223) % 4294967296))

/-! Helper lemmas shared by the claim theorems. -/

/-- The validator reports nothing exactly when every required column is
present. -/
theorem validate_excel_eq_nil_iff (df : RawTable) (required : List String)
    (label : String) :
    validate_excel df required label = [] ↔ ∀ c ∈ required, c ∈ df.cols := by
  have hkey : ((required.filter (fun c => c ∉ df.cols)).dedup = []) ↔
      ∀ c ∈ required, c ∈ df.cols := by
    rw [List.dedup_eq_nil, List.filter_eq_nil_iff]
    simp
  rw [validate_excel]
  by_cases hnil : (required.filter (fun c => c ∉ df.cols)).dedup = []
  · simp only [hnil, if_pos]
    exact ⟨fun _ => hkey.mp hnil, fun _ => trivial⟩
  · simp only [hnil, if_neg, reduceIte]
    simp only [List.cons_ne_nil, false_iff]
    intro h
    exact hnil (hkey.mpr h)

/-- Summing a value fiberwise over a covering list of distinct keys equals
summing it over the whole list. -/
theorem sum_fiberwise {κ : Type} [DecidableEq κ] (key : SalesRecord → κ)
    (val : SalesRecord → ℚ) :
    ∀ (ks : List κ) (l : List SalesRecord), ks.Nodup → (∀ a ∈ l, key a ∈ ks) →
      (ks.map (fun k => ((l.filter (fun a => key a = k)).map val).sum)).sum =
        (l.map val).sum := by
  intro ks
  induction ks with
  | nil =>
    intro l _ hcov
    have : l = [] := by
      cases l with
      | nil => rfl
      | cons a tl => exact absurd (hcov a (by simp)) (by simp)
    simp [this]
  | cons k ks ih =>
    intro l hnd hcov
    have hk_notin : k ∉ ks := (List.nodup_cons.mp hnd).1
    have hnd' : ks.Nodup := (List.nodup_cons.mp hnd).2
    have hsplit : (l.map val).sum =
        ((l.filter (fun a => key a = k)).map val).sum +
          ((l.filter (fun a => !(decide (key a = k)))).map val).sum := by
      have hperm := (l.filter_append_perm (fun a => decide (key a = k)))
      have := (hperm.map val).sum_eq
      rw [← this, List.map_append, List.sum_append]
    have htail : ∀ k' ∈ ks,
        ((l.filter (fun a => key a = k')).map val).sum =
          (((l.filter (fun a => !(decide (key a = k)))).filter
            (fun a => key a = k')).map val).sum := by
      intro k' hk'
      have hkk : k' ≠ k := fun he => hk_notin (he ▸ hk')
      congr 1
      congr 1
      rw [List.filter_filter]
      symm
      apply List.filter_congr
      intro a _
      by_cases hak : key a = k'
      · simp [hak, hkk]
      · simp [hak]
    have hcov2 : ∀ a ∈ l.filter (fun a => !(decide (key a = k))), key a ∈ ks := by
      intro a ha
      have hmem := List.mem_filter.mp ha
      have hin := hcov a hmem.1
      have hne : ¬(key a = k) := by simpa using hmem.2
      simpa [hne] using hin
    rw [List.map_cons, List.sum_cons, hsplit]
    congr 1
    calc (ks.map (fun k' => ((l.filter (fun a => key a = k')).map val).sum)).sum
        = (ks.map (fun k' => (((l.filter (fun a => !(decide (key a = k)))).filter
            (fun a => key a = k')).map val).sum)).sum := by
          rw [List.map_congr_left htail]
      _ = ((l.filter (fun a => !(decide (key a = k)))).map val).sum :=
          ih (l.filter (fun a => !(decide (key a = k)))) hnd' hcov2

/-- When every share of the category table is finite, `sumShares` is `some`
of the plain sum. -/
theorem sumShares_all_some (rows : List CategoryRow)
    (h : ∀ r ∈ rows, r.revenue_share ≠ none) :
    sumShares rows = some ((rows.map (fun r => r.revenue_share.getD 0)).sum) := by
  induction rows with
  | nil => rfl
  | cons a tl ih =>
    have ha : a.revenue_share ≠ none := h a (by simp)
    rcases hsh : a.revenue_share with _ | q
    · exact absurd hsh ha
    · have := ih (fun r hr => h r (by simp [hr]))
      simp [sumShares] at this ⊢
      rw [hsh]
      simp [this, hsh]

/-- The transaction loop consumes the random stream identically for any two
dates and produces rows that agree after `stripTimeSales`. -/
theorem genTxns_strip (step : RngStep) (d1 d2 : Int) (bIdx : Nat) (bName region : String) :
    ∀ (count i s : Nat),
      (genTxns step d1 bIdx bName region count i s).2 =
        (genTxns step d2 bIdx bName region count i s).2
      ∧ (genTxns step d1 bIdx bName region count i s).1.map stripTimeSales =
        (genTxns step d2 bIdx bName region count i s).1.map stripTimeSales := by
  intro count
  induction count with
  | zero => exact fun i s => ⟨rfl, rfl⟩
  | succ k ih =>
    intro i s
    obtain ⟨ihs, ihm⟩ := ih (i + 1) ((genTxn step d1 bIdx bName region i s).2)
    constructor
    · exact ihs
    · show stripTimeSales (genTxn step d1 bIdx bName region i s).1 ::
          (genTxns step d1 bIdx bName region k (i + 1) _).1.map stripTimeSales =
        stripTimeSales (genTxn step d2 bIdx bName region i s).1 ::
          (genTxns step d2 bIdx bName region k (i + 1) _).1.map stripTimeSales
      rw [ihm]
      rfl

/-- One day's boutique loop: same stream consumption, strip-equal rows, for
any two dates. -/
theorem genDay_strip (step : RngStep) (d1 d2 : Int) :
    ∀ (bs : List (Nat × String × String)) (s : Nat),
      (genDay step d1 bs s).2 = (genDay step d2 bs s).2
      ∧ (genDay step d1 bs s).1.map stripTimeSales =
        (genDay step d2 bs s).1.map stripTimeSales := by
  intro bs
  induction bs with
  | nil => exact fun s => ⟨rfl, rfl⟩
  | cons b rest ih =>
    intro s
    obtain ⟨hts, htm⟩ := genTxns_strip step d1 d2 b.1 b.2.1 b.2.2
      (randint step 5 16 s).1 0 (randint step 5 16 s).2
    obtain ⟨ihs, ihm⟩ := ih (genTxns step d2 b.1 b.2.1 b.2.2
      (randint step 5 16 s).1 0 (randint step 5 16 s).2).2
    constructor
    · show (genDay step d1 rest _).2 = (genDay step d2 rest _).2
      rw [hts]
      exact ihs
    · show ((genTxns step d1 b.1 b.2.1 b.2.2 _ 0 _).1 ++ (genDay step d1 rest _).1).map
          stripTimeSales =
        ((genTxns step d2 b.1 b.2.1 b.2.2 _ 0 _).1 ++ (genDay step d2 rest _).1).map
          stripTimeSales
      rw [List.map_append, List.map_append, htm, hts, ihm]

/-- The outer day loop: for two date lists of equal length, stream
consumption and strip-equal rows coincide. -/
theorem genDays_strip (step : RngStep) :
    ∀ (ds1 ds2 : List Int) (bs : List (Nat × String × String)) (s : Nat),
      ds1.length = ds2.length →
      (genDays step ds1 bs s).2 = (genDays step ds2 bs s).2
      ∧ (genDays step ds1 bs s).1.map stripTimeSales =
        (genDays step ds2 bs s).1.map stripTimeSales := by
  intro ds1
  induction ds1 with
  | nil =>
    intro ds2 bs s hlen
    cases ds2 with
    | nil => exact ⟨rfl, rfl⟩
    | cons d ds => simp at hlen
  | cons d1 tl1 ih =>
    intro ds2 bs s hlen
    cases ds2 with
    | nil => simp at hlen
    | cons d2 tl2 =>
      have hlen' : tl1.length = tl2.length := by simpa using hlen
      obtain ⟨hds, hdm⟩ := genDay_strip step d1 d2 bs s
      obtain ⟨ihs, ihm⟩ := ih tl2 bs (genDay step d2 bs s).2 hlen'
      constructor
      · show (genDays step tl1 bs _).2 = (genDays step tl2 bs _).2
        rw [hds]
        exact ihs
      · show ((genDay step d1 bs s).1 ++ (genDays step tl1 bs _).1).map stripTimeSales =
          ((genDay step d2 bs s).1 ++ (genDays step tl2 bs _).1).map stripTimeSales
        rw [List.map_append, List.map_append, hdm, hds, ihm]

/-- The SKU loop of the inventory generator, for any two invocation dates. -/
theorem genInvItems_strip (step : RngStep) (n1 n2 : Int) (bIdx : Nat) :
    ∀ (count i s : Nat),
      (genInvItems step n1 bIdx count i s).2 = (genInvItems step n2 bIdx count i s).2
      ∧ (genInvItems step n1 bIdx count i s).1.map stripTimeInv =
        (genInvItems step n2 bIdx count i s).1.map stripTimeInv := by
  intro count
  induction count with
  | zero => exact fun i s => ⟨rfl, rfl⟩
  | succ k ih =>
    intro i s
    obtain ⟨ihs, ihm⟩ := ih (i + 1) ((genInvItem step n1 bIdx i s).2)
    constructor
    · exact ihs
    · show stripTimeInv (genInvItem step n1 bIdx i s).1 ::
          (genInvItems step n1 bIdx k (i + 1) _).1.map stripTimeInv =
        stripTimeInv (genInvItem step n2 bIdx i s).1 ::
          (genInvItems step n2 bIdx k (i + 1) _).1.map stripTimeInv
      rw [ihm]
      rfl

/-- The boutique loop of the inventory generator, for any two invocation
dates. -/
theorem genInv_strip (step : RngStep) (n1 n2 : Int) :
    ∀ (bs : List (Nat × String × String)) (s : Nat),
      (genInv step n1 bs s).2 = (genInv step n2 bs s).2
      ∧ (genInv step n1 bs s).1.map stripTimeInv =
        (genInv step n2 bs s).1.map stripTimeInv := by
  intro bs
  induction bs with
  | nil => exact fun s => ⟨rfl, rfl⟩
  | cons b rest ih =>
    intro s
    obtain ⟨hts, htm⟩ := genInvItems_strip step n1 n2 b.1 50 0 s
    obtain ⟨ihs, ihm⟩ := ih (genInvItems step n2 b.1 50 0 s).2
    constructor
    · show (genInv step n1 rest _).2 = (genInv step n2 rest _).2
      rw [hts]
      exact ihs
    · show ((genInvItems step n1 b.1 50 0 s).1 ++ (genInv step n1 rest _).1).map
          stripTimeInv =
        ((genInvItems step n2 b.1 50 0 s).1 ++ (genInv step n2 rest _).1).map stripTimeInv
      rw [List.map_append, List.map_append, htm, hts, ihm]

/-! The claim theorems, with witnesses and counterexamples. -/

/-- C1 counterexample: on a single-day table (evaluated on a later wall-clock
day, so the engine falls back to the max date and "yesterday" is empty),
yesterday's visitor denominator is 0, yet `conversion_change` is 1, not 0 —
the code computes `conversion_rate - prev_conversion` with `prev_conversion`
substituted by 0, so `conversion_change` inherits today's conversion rate. -/
theorem kpi_conversion_change_nonzero_on_zero_denominator :
    nuniqueBy (·.boutique_id) (yesterdayData 5 oneDayTable) * 100 = 0
    ∧ (calculate_kpis 5 oneDayTable []).conversion_change = 1
    ∧ (calculate_kpis 5 oneDayTable []).conversion_change ≠ 0 := by
  refine ⟨by simp [nuniqueBy, yesterdayData, rowsOnDate, oneDayTable, listMaxD], ?_, ?_⟩
  all_goals
    norm_num +decide [calculate_kpis, todayData, yesterdayData, rowsOnDate, listMaxD,
      oneDayTable, nuniqueBy, txnGroupSums, pmean, List.filter, List.dedup, List.pwFilter]

/-- C1 (amended): `revenue_growth` is 0 whenever yesterday's summed revenue
is 0, and `atv_change` is 0 whenever yesterday's ATV is 0 (or undefined,
i.e. NaN for an empty yesterday); but when yesterday's visitor denominator
(distinct yesterday boutiques × 100) is 0, `conversion_change` equals
today's `conversion_rate` (yesterday's conversion is substituted by 0)
rather than 0.  All returned metrics are exact rationals, hence finite and
non-NaN by construction of the embedding's guards. -/
theorem kpi_zero_denominator_guards (now : Int) (sales : List SalesRecord)
    (inv : List InventoryRecord) :
    (((yesterdayData now sales).map (·.revenue_usd)).sum = 0 →
      (calculate_kpis now sales inv).revenue_growth = 0)
    ∧ ((pmean (txnGroupSums (yesterdayData now sales))).getD 0 = 0 →
      (calculate_kpis now sales inv).atv_change = 0)
    ∧ (nuniqueBy (·.boutique_id) (yesterdayData now sales) * 100 = 0 →
      (calculate_kpis now sales inv).conversion_change =
        (calculate_kpis now sales inv).conversion_rate) := by
  refine ⟨fun h => ?_, fun h => ?_, fun h => ?_⟩
  · simp [calculate_kpis, h]
  · rcases hp : pmean (txnGroupSums (yesterdayData now sales)) with _ | p
    · simp [calculate_kpis, hp]
    · rw [hp] at h
      simp at h
      simp [calculate_kpis, hp, h]
  · simp [calculate_kpis, h]

/-- Witness for `kpi_zero_denominator_guards` at the one-day table, where
all three "yesterday" denominators are 0. -/
theorem kpi_zero_denominator_guards_witness :
    (calculate_kpis 5 oneDayTable []).revenue_growth = 0
    ∧ (calculate_kpis 5 oneDayTable []).atv_change = 0
    ∧ (calculate_kpis 5 oneDayTable []).conversion_change =
        (calculate_kpis 5 oneDayTable []).conversion_rate := by
  have h := kpi_zero_denominator_guards 5 oneDayTable []
  have hyest : yesterdayData 5 oneDayTable = [] := by
    simp [yesterdayData, rowsOnDate, oneDayTable, listMaxD]
  exact ⟨h.1 (by simp [hyest]), h.2.1 (by simp [hyest, txnGroupSums, pmean]),
    h.2.2 (by simp [hyest, nuniqueBy])⟩

/-- C2: on the two-day scenario table whose max date `a + 1` is not the
current wall-clock date (and the wall-clock date is not day `a` either, so
the engine's fallback "today" resolution applies), `calculate_kpis` returns
`revenue_growth = -20`, `atv = 8000` and `atv_change = 60`. -/
theorem kpi_two_day_scenario (a now : Int) (h1 : now ≠ a) (h2 : now ≠ a + 1) :
    (calculate_kpis now (c2Table a) []).revenue_growth = -20
    ∧ (calculate_kpis now (c2Table a) []).atv = 8000
    ∧ (calculate_kpis now (c2Table a) []).atv_change = 60 := by
  have hmax : listMaxD ((c2Table a).map (·.date)) = a + 1 := by
    simp [listMaxD, c2Table]
  have hnow : rowsOnDate (c2Table a) now = [] := by
    simp [rowsOnDate, c2Table, Ne.symm h1, Ne.symm h2]
  have htoday : todayData now (c2Table a) =
      [⟨a + 1, "BTQ001", "Dubai Mall", "Middle East", "SKU3", "Watches", "Rolex", 1, 8000,
        "TXNB0001", "New"⟩] := by
    rw [todayData, if_pos hnow, hmax]
    simp [rowsOnDate, c2Table, show ¬(a = a + 1) by omega]
  have hyest : yesterdayData now (c2Table a) =
      [⟨a, "BTQ001", "Dubai Mall", "Middle East", "SKU1", "Watches", "Rolex", 1, 5000,
        "TXNA0001", "New"⟩,
       ⟨a, "BTQ001", "Dubai Mall", "Middle East", "SKU2", "Watches", "Rolex", 1, 5000,
        "TXNA0002", "New"⟩] := by
    rw [yesterdayData, if_pos hnow, hmax]
    simp [rowsOnDate, c2Table, show a + 1 - 1 = a by omega, show ¬(a + 1 = a) by omega]
  norm_num +decide [calculate_kpis, htoday, hyest, txnGroupSums, pmean,
    List.filter, List.dedup, List.pwFilter]

/-- Witness for `kpi_two_day_scenario` with day A = 0 and wall clock at
day 100. -/
theorem kpi_two_day_scenario_witness :
    (calculate_kpis 100 (c2Table 0) []).revenue_growth = -20
    ∧ (calculate_kpis 100 (c2Table 0) []).atv = 8000
    ∧ (calculate_kpis 100 (c2Table 0) []).atv_change = 60 :=
  kpi_two_day_scenario 0 100 (by decide) (by decide)

/-- C3: `validate_excel` returns the empty list iff every required column is
a column of the table; otherwise it returns exactly one error string, built
from the label and the list of missing columns, and that list holds exactly
the required columns absent from the table.  The embedding is a total
function: no input raises. -/
theorem validate_excel_spec (df : RawTable) (required : List String) (label : String) :
    (validate_excel df required label = [] ↔ ∀ c ∈ required, c ∈ df.cols)
    ∧ ((∃ c ∈ required, c ∉ df.cols) →
        validate_excel df required label =
          [label ++ " is missing columns: " ++
            String.intercalate ", " ((required.filter (fun c => c ∉ df.cols)).dedup)]
        ∧ ∀ c, c ∈ (required.filter (fun c => c ∉ df.cols)).dedup ↔
            (c ∈ required ∧ c ∉ df.cols)) := by
  refine ⟨validate_excel_eq_nil_iff df required label,
    fun ⟨c, hc, hmem⟩ => ⟨?_, fun x => ?_⟩⟩
  · have hne : (required.filter (fun c => c ∉ df.cols)).dedup ≠ [] := by
      intro hnil
      have : c ∈ (required.filter (fun c => c ∉ df.cols)).dedup := by
        simp [List.mem_dedup, List.mem_filter, hc, hmem]
      rw [hnil] at this
      simp at this
    rw [validate_excel]
    simp only [hne, reduceIte]
  · simp [List.mem_dedup, List.mem_filter]

/-- Witness for `validate_excel_spec`: on a table with columns `[A]` and
required columns `[A, B]`, the validator reports exactly the one message
naming the label and the missing column `B`. -/
theorem validate_excel_spec_witness :
    validate_excel ⟨["A"], []⟩ ["A", "B"] "Sales Report" =
      ["Sales Report is missing columns: B"] := by
  have h := (validate_excel_spec ⟨["A"], []⟩ ["A", "B"] "Sales Report").2
    ⟨"B", by simp, by simp⟩
  rw [h.1]
  rfl

/-- C4: `calculate_boutique_metrics` aggregates exactly the trailing 7-day
window.  A row dated exactly 7 days before the max date lands in the window,
a row dated exactly 8 days before does not, and every result row's Revenue,
Units_Sold and Transactions are computed from precisely the sales rows that
match its group key and lie inside the window. -/
theorem boutique_metrics_seven_day_window (sales : List SalesRecord) (h : sales ≠ []) :
    (∀ r ∈ sales, r.date = listMaxD (sales.map (·.date)) - 7 → r ∈ last7Rows sales)
    ∧ (∀ r, r.date = listMaxD (sales.map (·.date)) - 8 → r ∉ last7Rows sales)
    ∧ (∀ row ∈ calculate_boutique_metrics sales,
        row.revenue = ((sales.filter (fun r =>
            decide (listMaxD (sales.map (·.date)) - 7 ≤ r.date
              ∧ r.boutique_name = row.boutique_name ∧ r.region = row.region))).map
          (·.revenue_usd)).sum
        ∧ row.units_sold = ((sales.filter (fun r =>
            decide (listMaxD (sales.map (·.date)) - 7 ≤ r.date
              ∧ r.boutique_name = row.boutique_name ∧ r.region = row.region))).map
          (·.units_sold)).sum
        ∧ row.transactions = (((sales.filter (fun r =>
            decide (listMaxD (sales.map (·.date)) - 7 ≤ r.date
              ∧ r.boutique_name = row.boutique_name ∧ r.region = row.region))).map
          (·.transaction_id)).dedup).length) := by
  refine ⟨?_, ?_, ?_⟩
  · intro r hr hd
    rw [last7Rows, List.mem_filter]
    refine ⟨hr, by simp [hd]⟩
  · intro r hd
    rw [last7Rows, List.mem_filter]
    intro ⟨_, hle⟩
    rw [hd] at hle
    simp at hle
    omega
  · intro row hrow
    rw [calculate_boutique_metrics, List.mem_mergeSort] at hrow
    obtain ⟨k, hk, hrk⟩ := List.mem_map.mp hrow
    have hfilt : boutiqueGroup (last7Rows sales) k = sales.filter (fun r =>
        decide (listMaxD (sales.map (·.date)) - 7 ≤ r.date
          ∧ r.boutique_name = k.1 ∧ r.region = k.2)) := by
      rw [boutiqueGroup, last7Rows, List.filter_filter]
      apply List.filter_congr
      intro a _
      rcases k with ⟨k1, k2⟩
      simp [Prod.ext_iff, and_comm, and_assoc, Bool.and_assoc]
    have hname : row.boutique_name = k.1 := by rw [← hrk]; rfl
    have hregion : row.region = k.2 := by rw [← hrk]; rfl
    rw [hname, hregion, ← hfilt, ← hrk]
    exact ⟨rfl, rfl, rfl⟩

/-- Witness for `boutique_metrics_seven_day_window`: on the concrete
boundary table, the row dated 7 days before the max is in the window and the
row dated 8 days before is not. -/
theorem boutique_metrics_seven_day_window_witness :
    c4Row (-7) "B" ∈ last7Rows c4Table ∧ c4Row (-8) "C" ∉ last7Rows c4Table :=
  ⟨(boutique_metrics_seven_day_window c4Table (by decide)).1 (c4Row (-7) "B")
      (by decide) (by decide),
   (boutique_metrics_seven_day_window c4Table (by decide)).2.1 (c4Row (-8) "C")
      (by decide)⟩

/-- C5: for every inventory table, `check_alerts` appends at most five
critical stockout messages: the block of stockout messages is exactly the
first five stockout rows in table order, each rendered with its product
name and boutique id, appended after the other critical alerts. -/
theorem stockout_alerts_capped_at_five (now_date : Int) (now_hour : Nat)
    (sales : List SalesRecord) (inv : InventoryTable) (overrides : ThresholdOverrides) :
    (((inv.rows.filter (fun r => r.current_stock_units = 0)).take 5).map
        (fun r => "STOCKOUT: " ++ r.product_name ++ " at " ++ r.boutique_id)).length ≤ 5
    ∧ ∃ pre, (check_alerts now_date now_hour sales inv overrides).critical =
        pre ++ ((inv.rows.filter (fun r => r.current_stock_units = 0)).take 5).map
          (fun r => "STOCKOUT: " ++ r.product_name ++ " at " ++ r.boutique_id) := by
  constructor
  · rw [List.length_map]
    exact List.length_take_le 5 _
  · refine ⟨if sales ≠ [] then revenueDropAlerts sales (mergeThresholds overrides)
      ++ zeroTransactionAlerts now_hour sales else [], ?_⟩
    rw [check_alerts]
    simp only
    congr 1
    by_cases hrows : inv.rows = []
    · simp [hrows, stockoutAlerts]
    · simp only [hrows, if_neg, ne_eq, not_false_eq_true, if_true, reduceIte]
      rw [stockoutAlerts]
      by_cases hstk : 0 < (inv.rows.filter (fun r => r.current_stock_units = 0)).length
      · simp [hstk]
      · have : (inv.rows.filter (fun r => r.current_stock_units = 0)) = [] := by
          cases hfe : (inv.rows.filter (fun r => r.current_stock_units = 0)) with
          | nil => rfl
          | cons x xs => rw [hfe] at hstk; simp at hstk
        simp [this]

/-- C6 counterexample: on a non-empty sales table whose total revenue is 0
the single category's revenue share is a pandas 0/0 (non-finite, `none` in
the embedding), so the Revenue_Share column does not sum to 100. -/
theorem category_revenue_share_nan_counterexample :
    zTable ≠ []
    ∧ sumShares (calculate_category_performance zTable) = none
    ∧ sumShares (calculate_category_performance zTable) ≠ some 100 := by
  refine ⟨by simp [zTable], ?_, ?_⟩ <;>
    norm_num +decide [calculate_category_performance, categoryKeys, categoryGroup,
      categoryTotal, mkCategoryRow, zTable, sumShares, List.dedup, List.pwFilter]

/-- C6 (amended): for every sales table with non-zero total revenue, the
Revenue_Share values returned by `calculate_category_performance` are all
finite and sum to exactly 100. -/
theorem category_revenue_share_sums_to_100 (sales : List SalesRecord)
    (h : (sales.map (·.revenue_usd)).sum ≠ 0) :
    sumShares (calculate_category_performance sales) = some 100 := by
  have htotal : categoryTotal sales = (sales.map (·.revenue_usd)).sum := by
    apply sum_fiberwise (·.product_category) (·.revenue_usd)
    · exact List.nodup_dedup _
    · intro a ha
      exact List.mem_dedup.mpr (List.mem_map_of_mem _ ha)
  have htne : categoryTotal sales ≠ 0 := by rw [htotal]; exact h
  have hall : ∀ r ∈ calculate_category_performance sales, r.revenue_share ≠ none := by
    intro r hr
    rw [calculate_category_performance, List.mem_mergeSort] at hr
    obtain ⟨c, _, hc⟩ := List.mem_map.mp hr
    rw [← hc]
    simp [mkCategoryRow, htne]
  rw [sumShares_all_some _ hall]
  have hperm : List.Perm (calculate_category_performance sales)
      ((categoryKeys sales).map (mkCategoryRow sales)) :=
    List.mergeSort_perm _ _
  have hsum : ((calculate_category_performance sales).map
        (fun r => r.revenue_share.getD 0)).sum =
      (((categoryKeys sales).map (mkCategoryRow sales)).map
        (fun r => r.revenue_share.getD 0)).sum :=
    ((hperm.map _).sum_eq)
  rw [hsum, List.map_map]
  have hshape : ((categoryKeys sales).map
      ((fun r : CategoryRow => r.revenue_share.getD 0) ∘ mkCategoryRow sales)) =
      (categoryKeys sales).map (fun c =>
        ((categoryGroup sales c).map (·.revenue_usd)).sum * (100 / categoryTotal sales)) := by
    apply List.map_congr_left
    intro c _
    simp [mkCategoryRow, htne]
    ring
  rw [hshape, List.sum_map_mul_right]
  have hdef : (List.map (fun c => ((categoryGroup sales c).map (·.revenue_usd)).sum)
      (categoryKeys sales)).sum = categoryTotal sales := rfl
  rw [hdef]
  congr 1
  field_simp

/-- Witness for `category_revenue_share_sums_to_100` at the one-row table
with revenue 100. -/
theorem category_revenue_share_sums_to_100_witness :
    sumShares (calculate_category_performance oneDayTable) = some 100 :=
  category_revenue_share_sums_to_100 oneDayTable (by norm_num [oneDayTable])

/-- C7 counterexample: with the same seed (42) but different invocation
instants, the generator produces different tables — the output reads the
wall clock, so it is not a function of the seed alone.  The divergence shows
already in the first sales row's `Date`. -/
theorem demo_data_not_seed_only_deterministic :
    generate_demo_data lcgStep 0 ≠ generate_demo_data lcgStep 1 := by
  intro h
  have h0 : ((generate_demo_data lcgStep 0).1.headD default).date = -29 := by decide
  have h1 : ((generate_demo_data lcgStep 1).1.headD default).date = -28 := by decide
  rw [h] at h0
  rw [h0] at h1
  exact absurd h1 (by decide)

/-- C7 (amended): for any random stream and the fixed seed, the generator is
deterministic given the invocation time — two invocations at the same
instant give identical tables, and across different instants the sales and
inventory tables agree on every field except the clock-derived ones
(`Date`, the date component of `Transaction_ID`, `Last_Restock_Date`),
because the stream is consumed identically. -/
theorem demo_data_deterministic_modulo_time (step : RngStep) (now1 now2 : Int) :
    (generate_demo_data step now1).1.map stripTimeSales =
      (generate_demo_data step now2).1.map stripTimeSales
    ∧ (generate_demo_data step now1).2.map stripTimeInv =
      (generate_demo_data step now2).2.map stripTimeInv := by
  have hlen : (demoDates now1).length = (demoDates now2).length := by
    simp [demoDates]
  obtain ⟨hss, hsm⟩ := genDays_strip step (demoDates now1) (demoDates now2)
    demoBoutiques 42 hlen
  obtain ⟨his, him⟩ := genInv_strip step now1 now2 demoBoutiques
    (genDays step (demoDates now1) demoBoutiques 42).2
  refine ⟨hsm, ?_⟩
  show (genInv step now1 demoBoutiques
      (genDays step (demoDates now1) demoBoutiques 42).2).1.map stripTimeInv =
    (genInv step now2 demoBoutiques
      (genDays step (demoDates now2) demoBoutiques 42).2).1.map stripTimeInv
  rw [him, hss]

/-- C8 counterexample: on a non-empty inventory table that has a
`Last_Restock_Date` column, `check_alerts` hands back an inventory table
that differs from its input — a `Days_Since_Restock` column has been added
in place (alerts.py line 92). -/
theorem check_alerts_mutates_inventory_counterexample :
    (check_alerts 200 0 [] invTable0 noOverrides).inventory_after ≠ invTable0
    ∧ "Days_Since_Restock" ∈ (check_alerts 200 0 [] invTable0 noOverrides).inventory_after.cols
    ∧ "Days_Since_Restock" ∉ invTable0.cols := by
  refine ⟨?_, by decide, by decide⟩
  intro h
  have h1 : "Days_Since_Restock"
      ∈ (check_alerts 200 0 [] invTable0 noOverrides).inventory_after.cols := by decide
  rw [h] at h1
  exact (by decide : "Days_Since_Restock" ∉ invTable0.cols) h1

/-- C8 (amended): `check_alerts` never modifies the sales table; it returns
the inventory table unchanged whenever it is empty or lacks a
`Last_Restock_Date` column, and otherwise changes it only by writing the
`Days_Since_Restock` column — every other column and cell is unchanged, and
the column list at most gains that one name. -/
theorem check_alerts_frame (now_date : Int) (now_hour : Nat) (sales : List SalesRecord)
    (inv : InventoryTable) (overrides : ThresholdOverrides) :
    (check_alerts now_date now_hour sales inv overrides).sales_after = sales
    ∧ ((inv.rows = [] ∨ "Last_Restock_Date" ∉ inv.cols) →
        (check_alerts now_date now_hour sales inv overrides).inventory_after = inv)
    ∧ ((check_alerts now_date now_hour sales inv overrides).inventory_after.rows.map
        stripDays = inv.rows.map stripDays)
    ∧ ((check_alerts now_date now_hour sales inv overrides).inventory_after.cols = inv.cols
      ∨ (check_alerts now_date now_hour sales inv overrides).inventory_after.cols =
          inv.cols ++ ["Days_Since_Restock"]) := by
  have hinv2 : (check_alerts now_date now_hour sales inv overrides).inventory_after =
      (if inv.rows ≠ [] then addDaysSinceRestock now_date inv else inv) := rfl
  refine ⟨rfl, ?_, ?_, ?_⟩
  · rintro (hrows | hcol)
    · rw [hinv2]
      simp [hrows]
    · rw [hinv2, addDaysSinceRestock]
      simp [hcol]
  · rw [hinv2]
    by_cases hrows : inv.rows = []
    · simp [hrows]
    · simp only [hrows, ne_eq, not_false_eq_true, if_true, reduceIte]
      rw [addDaysSinceRestock]
      by_cases hcol : "Last_Restock_Date" ∈ inv.cols
      · simp only [hcol, if_pos, reduceIte]
        rw [List.map_map]
        rfl
      · simp [hcol]
  · rw [hinv2]
    by_cases hrows : inv.rows = []
    · simp [hrows]
    · simp only [hrows, ne_eq, not_false_eq_true, if_true, reduceIte]
      rw [addDaysSinceRestock]
      by_cases hcol : "Last_Restock_Date" ∈ inv.cols
      · simp only [hcol, if_pos, reduceIte]
        by_cases hdcol : "Days_Since_Restock" ∈ inv.cols
        · simp [hdcol]
        · simp [hdcol]
      · simp [hcol]

/-- Witness for `check_alerts_frame`: an inventory table without a
`Last_Restock_Date` column is returned untouched. -/
theorem check_alerts_frame_witness :
    (check_alerts 0 0 [] (InventoryTable.mk ["Date"] []) noOverrides).inventory_after =
      InventoryTable.mk ["Date"] [] :=
  (check_alerts_frame 0 0 [] (InventoryTable.mk ["Date"] []) noOverrides).2.1 (Or.inl rfl)

/-- C9: every row of `calculate_boutique_metrics` on a non-empty sales table
has at least one transaction — each group key arises from at least one
window row, which carries a `Transaction_ID`, so the ATV denominator is
never zero. -/
theorem boutique_transactions_positive (sales : List SalesRecord) (h : sales ≠ []) :
    ∀ row ∈ calculate_boutique_metrics sales, 1 ≤ row.transactions := by
  intro row hrow
  rw [calculate_boutique_metrics, List.mem_mergeSort] at hrow
  obtain ⟨k, hk, hrk⟩ := List.mem_map.mp hrow
  obtain ⟨r, hr, hkey⟩ := List.mem_map.mp (List.mem_dedup.mp hk)
  have hgrp : r ∈ boutiqueGroup (last7Rows sales) k := by
    rw [boutiqueGroup, List.mem_filter]
    exact ⟨hr, by simp [hkey]⟩
  have hne : boutiqueGroup (last7Rows sales) k ≠ [] := by
    intro hnil
    rw [hnil] at hgrp
    simp at hgrp
  have hdne : ((boutiqueGroup (last7Rows sales) k).map (·.transaction_id)).dedup ≠ [] := by
    rw [Ne, List.dedup_eq_nil, List.map_eq_nil_iff]
    exact hne
  rw [← hrk]
  show 1 ≤ ((boutiqueGroup (last7Rows sales) k).map (·.transaction_id)).dedup.length
  have hlen := List.length_pos_iff_ne_nil.mpr hdne
  omega

/-- Witness for `boutique_transactions_positive`: the single aggregated row
of the one-row table has one transaction. -/
theorem boutique_transactions_positive_witness :
    1 ≤ (⟨"Dubai Mall", "Middle East", 100, 1, 1, 700, 1 / 7, 100⟩ : BoutiqueRow).transactions := by
  have hmem : (⟨"Dubai Mall", "Middle East", 100, 1, 1, 700, 1 / 7, 100⟩ : BoutiqueRow)
      ∈ calculate_boutique_metrics oneDayTable := by
    norm_num +decide [calculate_boutique_metrics, last7Rows, boutiqueKeys, boutiqueGroup,
      mkBoutiqueRow, oneDayTable, listMaxD, List.filter, List.dedup, List.pwFilter]
  exact boutique_transactions_positive oneDayTable (by decide) _ hmem
/-- C10: for either input file, when its table lacks the `Date` column,
`load_data` returns that table as absent, the error list contains both that
file's validation message (non-empty, since `Date` is required for both
column sets) and that file's load-error message, and the other file's table
and error contributions are exactly what its own pipeline alone produces. -/
theorem load_data_missing_date (parse : RawTable → Except String RawTable)
    (sdf idf : RawTable) :
    ("Date" ∉ sdf.cols →
      (load_data parse sdf idf).1 = none
      ∧ validate_excel sdf sales_columns "Sales Report" ≠ []
      ∧ (∀ m ∈ validate_excel sdf sales_columns "Sales Report",
          m ∈ (load_data parse sdf idf).2.2)
      ∧ "Error loading sales file: 'Date'" ∈ (load_data parse sdf idf).2.2
      ∧ (load_data parse sdf idf).2.1 =
          (loadOne parse idf inventory_columns "Inventory Report" "inventory").1
      ∧ (load_data parse sdf idf).2.2 =
          (validate_excel sdf sales_columns "Sales Report"
            ++ ["Error loading sales file: 'Date'"])
            ++ (loadOne parse idf inventory_columns "Inventory Report" "inventory").2)
    ∧ ("Date" ∉ idf.cols →
      (load_data parse sdf idf).2.1 = none
      ∧ validate_excel idf inventory_columns "Inventory Report" ≠ []
      ∧ (∀ m ∈ validate_excel idf inventory_columns "Inventory Report",
          m ∈ (load_data parse sdf idf).2.2)
      ∧ "Error loading inventory file: 'Date'" ∈ (load_data parse sdf idf).2.2
      ∧ (load_data parse sdf idf).1 =
          (loadOne parse sdf sales_columns "Sales Report" "sales").1
      ∧ (load_data parse sdf idf).2.2 =
          (loadOne parse sdf sales_columns "Sales Report" "sales").2
            ++ (validate_excel idf inventory_columns "Inventory Report"
              ++ ["Error loading inventory file: 'Date'"])) := by
  constructor
  · intro h
    have hconv : convertDate parse sdf = Except.error "'Date'" := by
      simp [convertDate, h]
    have hload : loadOne parse sdf sales_columns "Sales Report" "sales" =
        (none, validate_excel sdf sales_columns "Sales Report"
          ++ ["Error loading sales file: 'Date'"]) := by
      rw [loadOne, hconv]
      rfl
    have hval : validate_excel sdf sales_columns "Sales Report" ≠ [] := by
      intro hnil
      have := (validate_excel_eq_nil_iff sdf sales_columns "Sales Report").mp hnil "Date"
        (by simp [sales_columns])
      exact h this
    refine ⟨?_, hval, ?_, ?_, ?_, ?_⟩
    · simp [load_data, hload]
    · intro m hm
      simp [load_data, hload]
      exact Or.inl hm
    · simp [load_data, hload]
    · simp [load_data]
    · simp [load_data, hload]
  · intro h
    have hconv : convertDate parse idf = Except.error "'Date'" := by
      simp [convertDate, h]
    have hload : loadOne parse idf inventory_columns "Inventory Report" "inventory" =
        (none, validate_excel idf inventory_columns "Inventory Report"
          ++ ["Error loading inventory file: 'Date'"]) := by
      rw [loadOne, hconv]
      rfl
    have hval : validate_excel idf inventory_columns "Inventory Report" ≠ [] := by
      intro hnil
      have := (validate_excel_eq_nil_iff idf inventory_columns "Inventory Report").mp
        hnil "Date" (by simp [inventory_columns])
      exact h this
    refine ⟨?_, hval, ?_, ?_, ?_, ?_⟩
    · simp [load_data, hload]
    · intro m hm
      simp [load_data, hload]
      exact Or.inr (Or.inl hm)
    · simp [load_data, hload]
    · simp [load_data]
    · simp [load_data, hload]

/-- Witness for `load_data_missing_date`: with both input tables lacking
every column, both sides apply — both tables come back absent and both load
errors are reported. -/
theorem load_data_missing_date_witness :
    (load_data parseOk ⟨[], []⟩ ⟨[], []⟩).1 = none
    ∧ (load_data parseOk ⟨[], []⟩ ⟨[], []⟩).2.1 = none
    ∧ "Error loading sales file: 'Date'" ∈ (load_data parseOk ⟨[], []⟩ ⟨[], []⟩).2.2
    ∧ "Error loading inventory file: 'Date'"
        ∈ (load_data parseOk ⟨[], []⟩ ⟨[], []⟩).2.2 := by
  have h := load_data_missing_date parseOk ⟨[], []⟩ ⟨[], []⟩
  have hs := h.1 (by decide)
  have hi := h.2 (by decide)
  exact ⟨hs.1, hi.1, hs.2.2.2.1, hi.2.2.2.1⟩

end Dashboard
